import Mathlib

/-!
# Verification of the BigQuery SQL safety sandbox

A shallow embedding of the SQL query safety sandbox of
`src/service/app/agent/tools/bigquery_sql.py` together with the policy
configuration validator of `src/service/app/config.py` and the shared
`ToolResult` shape of `src/service/app/agent/tools/__init__.py`.

The SQL string itself is parsed by `sqlglot` in the source; the embedding
starts from the parser's output: a list of optional statement trees
(`sqlglot.parse` returns `None` entries for empty statements).  Syntax
trees are modelled by the `Node` type below, whose node kinds carry
exactly the attributes the validator reads (`table.name` / `table.db` /
`table.catalog`, function-call name candidates, CTE aliases, the select's
limit argument).  Python string operations used by the validator
(`lower`, `upper`, `strip`, `replace`, `split`, substring test) are
modelled as structurally recursive functions over character lists so that
every definition evaluates inside the kernel.
-/

namespace Labsight

/-! ## Python string primitives -/

/-- Does `p` occur at the start of `s` (character lists)? -/
def listStartsWith : List Char → List Char → Bool
  | [], _ => true
  | _ :: _, [] => false
  | p :: ps, c :: cs => p == c && listStartsWith ps cs

/-- Does `p` occur anywhere inside `s` (character lists)?  Models Python's
`p in s` substring test. -/
def listHasSub (p : List Char) : List Char → Bool
  | [] => p.isEmpty
  | c :: cs => listStartsWith p (c :: cs) || listHasSub p cs

/-- Python `sub in s` on strings. -/
def strContainsSub (s sub : String) : Bool :=
  listHasSub sub.data s.data

/-- Drop leading whitespace from a character list. -/
def dropLeadingWs : List Char → List Char
  | [] => []
  | c :: cs => if c.isWhitespace then dropLeadingWs cs else c :: cs

/-- Python `str.strip()` on a character list: drop whitespace at both ends. -/
def trimChars (cs : List Char) : List Char :=
  ((dropLeadingWs ((dropLeadingWs cs).reverse)).reverse)

/-- Python `str.lower()` (ASCII case mapping, which covers SQL identifiers). -/
def str_lower (s : String) : String :=
  ⟨s.data.map Char.toLower⟩

/-- Python `str.upper()` (ASCII case mapping). -/
def str_upper (s : String) : String :=
  ⟨s.data.map Char.toUpper⟩

/-- Python `str.replace(c, "")` for a single-character pattern: remove every
occurrence of `c0`. -/
def removeChar (c0 : Char) (cs : List Char) : List Char :=
  cs.filter (fun c => c ≠ c0)

/-- Python `str.split(",")` on a character list (keeps empty pieces). -/
def splitCommaAux : List Char → List Char → List (List Char)
  | [], acc => [acc.reverse]
  | c :: cs, acc =>
    if c = ',' then acc.reverse :: splitCommaAux cs []
    else splitCommaAux cs (c :: acc)

/-! ## Name Normalizer and Function Policy
(`bigquery_sql.py` lines 44–98) -/

/-- `_BLOCKED_FUNCTIONS` (bigquery_sql.py line 44): functions that can access
external data sources or bypass the table allowlist. -/
def _BLOCKED_FUNCTIONS : List String :=
  ["external_query", "read_gbq", "ml.predict", "ml.evaluate",
   "ml.generate_text", "ml.forecast", "ml.recommend", "ml.detect_anomalies"]

/-- `_normalize_function_token` (line 56): strip whitespace, lower-case, then
remove dots, underscores and spaces. -/
def _normalize_function_token (name : String) : String :=
  ⟨removeChar ' ' (removeChar '_' (removeChar '.'
    ((trimChars name.data).map Char.toLower)))⟩

/-- `_BLOCKED_FUNCTIONS_CANONICAL` (line 67): the normalized blocklist. -/
def _BLOCKED_FUNCTIONS_CANONICAL : List String :=
  _BLOCKED_FUNCTIONS.map _normalize_function_token

/-- Everything after the first `'.'` in a character list, when one occurs. -/
def afterDotAux : List Char → Option (List Char)
  | [] => none
  | c :: cs => if c = '.' then some cs else afterDotAux cs

/-- Python `name.split(".", 1)[1]`: everything after the first dot, when the
name contains a dot. -/
def afterFirstDot (s : String) : Option String :=
  (afterDotAux s.data).map fun cs => ⟨cs⟩

/-- `_BLOCKED_FUNCTION_BASENAME_DISPLAY` (line 70): maps the normalized
basename (part after the first dot) of each dotted blocked name to its
upper-cased display form. -/
def _BLOCKED_FUNCTION_BASENAME_DISPLAY : List (String × String) :=
  _BLOCKED_FUNCTIONS.filterMap fun name =>
    (afterFirstDot name).map fun base =>
      (_normalize_function_token base, str_upper name)

/-- The attributes of a `sqlglot` function-call node that
`_blocked_function_label` reads: `func.name` when the node is
`exp.Anonymous` (`none` otherwise), `func.sql_name()`, and
`type(func).__name__`. -/
structure FuncData where
  anonymousName : Option String
  sqlName : String
  typeName : String
  deriving DecidableEq, Repr

/-- The candidate call-name strings built by `_blocked_function_label`
(lines 79–88): the anonymous call name when truthy, the dialect's
canonical name when truthy, and the node's type tag. -/
def funcCandidates (f : FuncData) : List String :=
  (match f.anonymousName with
   | some n => if n = "" then [] else [n]
   | none => []) ++
  (if f.sqlName = "" then [] else [f.sqlName]) ++
  [f.typeName]

/-- One iteration of the candidate loop (lines 90–96): membership in the
canonical blocklist returns the upper-cased candidate; otherwise the
basename display map is consulted. -/
def candidateLabel (candidate : String) : Option String :=
  let normalized := _normalize_function_token candidate
  if _BLOCKED_FUNCTIONS_CANONICAL.contains normalized then
    some (str_upper candidate)
  else
    _BLOCKED_FUNCTION_BASENAME_DISPLAY.lookup normalized

/-- `_blocked_function_label` (line 77): the first candidate that matches the
blocklist, if any. -/
def _blocked_function_label (f : FuncData) : Option String :=
  (funcCandidates f).findSome? candidateLabel

/-! ## The syntax tree -/

/-- The attributes of a `sqlglot` `exp.Table` node that the validator reads
(lines 223–225): `table.catalog` (project), `table.db` (dataset) and
`table.name`, each `""` when absent. -/
structure TableData where
  catalog : String
  db : String
  name : String
  deriving DecidableEq, Repr

/-- Node kinds of the parsed tree, covering exactly the node classes the
validator dispatches on: `exp.Select` (carrying its limit argument),
`exp.CTE` (carrying its alias, `""` when absent), `exp.Table`, `exp.Func`,
the seven mutation classes of line 189, and a catch-all for every other
node class (carrying `type(node).__name__`). -/
inductive NodeKind where
  | selectK (limit : Option Nat)
  | cteK (aliasName : String)
  | tableK (t : TableData)
  | funcK (f : FuncData)
  | insertK
  | updateK
  | deleteK
  | dropK
  | createK
  | alterK
  | commandK
  | otherK (typeName : String)
  deriving DecidableEq, Repr

mutual
/-- A parsed syntax tree: a node kind together with its child subtrees. -/
inductive Node where
  | mk (kind : NodeKind) (children : NodeList)
/-- The children of a node (a list, spelled as a mutual inductive so that
tree traversals are structurally recursive). -/
inductive NodeList where
  | nil
  | cons (head : Node) (tail : NodeList)
end

/-- Build a `NodeList` from an ordinary list. -/
def nl : List Node → NodeList
  | [] => .nil
  | n :: ns => .cons n (nl ns)

/-- The kind at the root of a tree. -/
def Node.kind : Node → NodeKind
  | .mk k _ => k

mutual
/-- `statement.walk()`: depth-first preorder traversal, yielding every node
of the tree, the root first (`sqlglot`'s `walk` yields every descendant,
the node itself included). -/
def Node.walk : Node → List Node
  | .mk k cs => .mk k cs :: cs.walkAll
/-- Traversal of a forest of sibling subtrees, in order. -/
def NodeList.walkAll : NodeList → List Node
  | .nil => []
  | .cons n ns => n.walk ++ ns.walkAll
end

/-- `isinstance(node, (exp.Insert, exp.Update, exp.Delete, exp.Drop,
exp.Create, exp.Alter, exp.Command))` (line 189). -/
def NodeKind.isMutation : NodeKind → Bool
  | .insertK | .updateK | .deleteK | .dropK | .createK | .alterK | .commandK => true
  | _ => false

/-- `type(node).__name__` for every node kind. -/
def NodeKind.pyTypeName : NodeKind → String
  | .selectK _ => "Select"
  | .cteK _ => "CTE"
  | .tableK _ => "Table"
  | .funcK f => f.typeName
  | .insertK => "Insert"
  | .updateK => "Update"
  | .deleteK => "Delete"
  | .dropK => "Drop"
  | .createK => "Create"
  | .alterK => "Alter"
  | .commandK => "Command"
  | .otherK t => t

/-- `isinstance(statement, exp.Select)` (line 181). -/
def Node.isSelect (n : Node) : Bool :=
  match n.kind with
  | .selectK _ => true
  | _ => false

/-- The first mutation-class node found while walking the tree (line 188),
reported by its type name. -/
def findMutation (statement : Node) : Option String :=
  (statement.walk.find? fun n => n.kind.isMutation).map fun n => n.kind.pyTypeName

/-- `statement.find_all(exp.Func)` (line 198): every function-call node in
the tree. -/
def findFuncs (statement : Node) : List FuncData :=
  statement.walk.filterMap fun n =>
    match n.kind with
    | .funcK f => some f
    | _ => none

/-- The loop of lines 198–203: the first function whose
`_blocked_function_label` is non-`None`, if any. -/
def findBlocked (statement : Node) : Option String :=
  (findFuncs statement).findSome? _blocked_function_label

/-- `cte_aliases` (lines 207–210): the lower-cased alias of every
`exp.CTE` node found anywhere in the tree (`find_all` walks nested
subqueries too), skipping falsy aliases. -/
def cte_aliases (statement : Node) : List String :=
  statement.walk.filterMap fun n =>
    match n.kind with
    | .cteK a => if a = "" then none else some (str_lower a)
    | _ => none

/-- `statement.find_all(exp.Table)` (line 222): every table-reference node
in the tree. -/
def findTables (statement : Node) : List TableData :=
  statement.walk.filterMap fun n =>
    match n.kind with
    | .tableK t => some t
    | _ => none

/-- Does the tree contain an `exp.Limit` node (`statement.find(exp.Limit)`,
line 270)?  In `sqlglot` the limit argument of any select in the tree is
such a node. -/
def hasLimitNode (statement : Node) : Bool :=
  statement.walk.any fun n =>
    match n.kind with
    | .selectK l => l.isSome
    | _ => false

/-- `statement.limit(n)` (line 271): set the limit argument of the
top-level select. -/
def setDefaultLimit (statement : Node) (n : Nat) : Node :=
  match statement with
  | .mk (.selectK _) cs => .mk (.selectK (some n)) cs
  | .mk k cs => .mk k cs

/-- The number of limit clauses in the tree (used to state the idempotence
of the rewriter). -/
def countLimits (statement : Node) : Nat :=
  (statement.walk.filter fun n =>
    match n.kind with
    | .selectK l => l.isSome
    | _ => false).length

/-- The limit argument of the top-level select. -/
def topLimit : Node → Option Nat
  | .mk (.selectK l) _ => l
  | _ => none

/-! ## The validator -/

/-- The validation error taxonomy: one constructor per `raise` site of
`validate_sql`, carrying the data interpolated into the message there. -/
inductive Err where
  | invalidPolicyMode (mode : String)
  | emptyAllowlist
  | multiStatement (count : Nat)
  | disallowedStatement (typeName : String)
  | blockedFunction (name : String)
  | metadataAccess
  | scopeViolationProject (project : String)
  | scopeViolationDataset (dataset : String)
  | unqualifiedTable (table : String)
  | unknownTable (table : String)
  | noTableReferenced
  deriving DecidableEq, Repr

/-- Outcome of processing one table reference in the loop of lines
222–261: skipped as a CTE alias, counted as a real table, or a
validation failure. -/
inductive TableCheck where
  | skip
  | counted
  | fail (e : Err)
  deriving DecidableEq, Repr

/-- `_DEFAULT_LIMIT` (line 36). -/
def _DEFAULT_LIMIT : Nat := 1000

/-- `_MAX_RESULT_BYTES` (line 35): the 50KB response cap. -/
def _MAX_RESULT_BYTES : Nat := 50000

/-- The body of the table loop (lines 223–259) for a single reference:
CTE-alias skip, INFORMATION_SCHEMA block, project check, dataset check,
then the strict-mode full-qualification and allowlist checks, in source
order.  `allowed_project_lower`, `allowed_dataset_lower` and
`allowed_tables_lower` are the lower-cased configuration values computed
before the loop (lines 213–217). -/
def tableStep (is_strict : Bool)
    (allowed_project_lower allowed_dataset_lower : String)
    (allowed_tables_lower : List String) (cteAliases : List String)
    (t : TableData) : TableCheck :=
  let table_name := str_lower t.name
  let table_catalog := str_lower t.catalog
  let table_db := str_lower t.db
  if table_name ∈ cteAliases ∧ table_catalog = "" ∧ table_db = "" then
    .skip
  else if strContainsSub table_name "information_schema" = true ∨
      strContainsSub table_db "information_schema" = true then
    .fail .metadataAccess
  else if table_catalog ≠ "" ∧ table_catalog ≠ allowed_project_lower then
    .fail (.scopeViolationProject t.catalog)
  else if table_db ≠ "" ∧ table_db ≠ allowed_dataset_lower then
    .fail (.scopeViolationDataset t.db)
  else if is_strict = true ∧ (table_catalog = "" ∨ table_db = "") then
    .fail (.unqualifiedTable t.name)
  else if is_strict = true ∧ table_name ∉ allowed_tables_lower then
    .fail (.unknownTable t.name)
  else
    .counted

/-- The table loop (lines 220–261): process the references in walk order,
threading `real_table_count`, stopping at the first failure. -/
def tableLoop (is_strict : Bool)
    (allowed_project_lower allowed_dataset_lower : String)
    (allowed_tables_lower : List String) (cteAliases : List String) :
    List TableData → Nat → Except Err Nat
  | [], count => .ok count
  | t :: ts, count =>
    match tableStep is_strict allowed_project_lower allowed_dataset_lower
        allowed_tables_lower cteAliases t with
    | .skip =>
      tableLoop is_strict allowed_project_lower allowed_dataset_lower
        allowed_tables_lower cteAliases ts count
    | .counted =>
      tableLoop is_strict allowed_project_lower allowed_dataset_lower
        allowed_tables_lower cteAliases ts (count + 1)
    | .fail e => .error e

/-- Validation of the single parsed statement: steps 3–7 of `validate_sql`
(lines 181–273).  Returns the possibly-rewritten tree (the source
serializes it back to SQL; the serialized string carries no information
beyond the tree). -/
def validate_statement (statement : Node)
    (allowed_project allowed_dataset : String) (is_strict : Bool)
    (allowed_tables : List String) : Except Err Node :=
  if statement.isSelect = false then
    .error (.disallowedStatement statement.kind.pyTypeName)
  else
    match findMutation statement with
    | some typeName => .error (.disallowedStatement typeName)
    | none =>
      match findBlocked statement with
      | some blocked_name => .error (.blockedFunction blocked_name)
      | none =>
        match tableLoop is_strict (str_lower allowed_project)
            (str_lower allowed_dataset) (allowed_tables.map str_lower)
            (cte_aliases statement) (findTables statement) 0 with
        | .error e => .error e
        | .ok real_table_count =>
          if is_strict = true ∧ real_table_count = 0 then
            .error .noTableReferenced
          else if hasLimitNode statement = true then
            .ok statement
          else
            .ok (setDefaultLimit statement _DEFAULT_LIMIT)

/-- `validate_sql` (line 133), starting from the parser's output: the list
returned by `sqlglot.parse` with `None` entries for empty statements.
Steps in source order: policy-mode check, strict-mode non-empty-allowlist
check, discarding of `None` entries, single-statement check, then
`validate_statement` on the unique statement.  An empty `allowed_tables`
list models both Python `None` and an empty frozenset (both falsy). -/
def validate_sql (statements : List (Option Node))
    (allowed_project allowed_dataset : String) (policy_mode : String)
    (allowed_tables : List String) : Except Err Node :=
  if policy_mode ≠ "strict" ∧ policy_mode ≠ "flex" then
    .error (.invalidPolicyMode policy_mode)
  else if policy_mode = "strict" ∧ allowed_tables = [] then
    .error .emptyAllowlist
  else
    match statements.filterMap id with
    | [statement] =>
      validate_statement statement allowed_project allowed_dataset
        (policy_mode = "strict") allowed_tables
    | other => .error (.multiStatement other.length)

/-! ## Policy configuration (`src/service/app/config.py`) -/

/-- The `Settings` fields read by `_validate_sql_policy` (config.py lines
37–39 and 66–69), with their source defaults.  Pydantic's
`Literal["strict", "flex"]` constrains `sql_policy_mode` before the
validator runs; the field is kept as a string here with that constraint
stated where needed. -/
structure Settings where
  retrieval_candidate_k : Int := 20
  retrieval_final_k : Int := 5
  sql_policy_mode : String := "strict"
  sql_allowed_tables : String := "uptime_events,resource_utilization,service_inventory"
  deriving DecidableEq, Repr

/-- The parsed allowlist of `_validate_sql_policy` (config.py line 83):
split on commas, strip each piece, keep the truthy (non-empty) ones. -/
def parsedAllowedTables (s : String) : List String :=
  (((splitCommaAux s.data []).map fun cs => (⟨trimChars cs⟩ : String)).filter
    fun t => t ≠ "")

/-- `Settings._validate_sql_policy` (config.py lines 71–90): the
model-validator that runs when a `Settings` value is constructed,
in source order. -/
def _validate_sql_policy (self : Settings) : Except String Settings :=
  if self.retrieval_final_k ≤ 0 then
    .error "retrieval_final_k must be greater than 0."
  else if self.retrieval_candidate_k < self.retrieval_final_k then
    .error "retrieval_candidate_k must be >= retrieval_final_k."
  else if self.sql_policy_mode = "strict" ∧
      parsedAllowedTables self.sql_allowed_tables = [] then
    .error "sql_allowed_tables must not be empty when sql_policy_mode is strict."
  else
    .ok self

/-! ## Execution Guard: response-payload truncation
(`bigquery_sql.py` lines 303–345, `tools/__init__.py` lines 6–15) -/

/-- `ToolResult` (`tools/__init__.py`): the structured return type shared by
all agent tools — exactly the fields `ok`, `error`, `data`. -/
structure ToolResult (α : Type) where
  ok : Bool
  error : Option String
  data : Option (List α)
  deriving DecidableEq, Repr

/-- The length of `json.dumps` applied to a list of rows, given each row's
own serialized length: two brackets plus the items plus the default item
separator `", "` (two characters) between consecutive items.  For the
empty list this is `len("[]") = 2`. -/
def jsonListLen (lens : List Nat) : Nat :=
  2 + lens.sum + 2 * (lens.length - 1)

/-- The row-dropping loop (lines 335–342): starting from `running_size = 2`,
keep each row whose serialized length plus one separator byte still fits
the budget, and stop at the first row that does not. -/
def truncateLoop {α : Type} (rowLen : α → Nat) : List α → Nat → List α
  | [], _ => []
  | row :: rest, running_size =>
    if running_size + rowLen row + 1 > _MAX_RESULT_BYTES then []
    else row :: truncateLoop rowLen rest (running_size + rowLen row + 1)

/-- Lines 332–343: serialize the rows, and when the payload exceeds the
byte budget replace `data` by the rows kept by the dropping loop.
`rowLen row` models `len(json.dumps(row, default=str))`. -/
def truncatePayload {α : Type} (rowLen : α → Nat) (data : List α) : List α :=
  if jsonListLen (data.map rowLen) > _MAX_RESULT_BYTES then
    truncateLoop rowLen data 2
  else
    data

/-- The `ToolResult` built on the successful execution path (line 345)
after rows were received: `ok = True`, no error, and the
possibly-truncated data. -/
def toolSuccessResult {α : Type} (rowLen : α → Nat) (rows : List α) :
    ToolResult α :=
  { ok := true, error := none, data := some (truncatePayload rowLen rows) }

/-! ## Concrete parse trees

Hand-translated `sqlglot` parse trees of the example queries of the spec,
used as concrete inputs to the validator. -/

/-- The default allowlist (`config.py` line 69). -/
def allowlist0 : List String :=
  ["uptime_events", "resource_utilization", "service_inventory"]

/-- Parse tree of `SELECT * FROM uptime_events`: a single unqualified table
reference. -/
def qUnqualified : Node :=
  .mk (.selectK none) (nl [.mk (.tableK ⟨"", "", "uptime_events"⟩) (nl [])])

/-- Parse tree of `SELECT 1`: a table-less select. -/
def qTableless : Node :=
  .mk (.selectK none) (nl [.mk (.otherK "Literal") (nl [])])

/-- Parse tree of `SELECT * FROM other_proj.ds.t`: a reference qualified
with a foreign project. -/
def qWrongProject : Node :=
  .mk (.selectK none) (nl [.mk (.tableK ⟨"other_proj", "ds", "t"⟩) (nl [])])

/-- Parse tree of `SELECT * FROM p.d.t LIMIT 5`. -/
def qLimit5 : Node :=
  .mk (.selectK (some 5)) (nl [.mk (.tableK ⟨"p", "d", "t"⟩) (nl [])])

/-- Parse tree of
`WITH data AS (SELECT * FROM p.d.secret_table) SELECT * FROM data`. -/
def qCte : Node :=
  .mk (.selectK none) (nl [
    .mk (.otherK "With") (nl [
      .mk (.cteK "data") (nl [
        .mk (.selectK none) (nl [
          .mk (.tableK ⟨"p", "d", "secret_table"⟩) (nl [])])])]),
    .mk (.tableK ⟨"", "", "data"⟩) (nl [])])

/-- Parse tree of `SELECT * FROM hidden, (WITH hidden AS (SELECT 1)
SELECT * FROM hidden) AS sub, p.d.uptime_events`: the `WITH` clause of a
nested subquery binds the alias `hidden`, and the outer `FROM` also
references an unqualified table named `hidden`. -/
def qNestedCte : Node :=
  .mk (.selectK none) (nl [
    .mk (.tableK ⟨"", "", "hidden"⟩) (nl []),
    .mk (.otherK "Subquery") (nl [
      .mk (.selectK none) (nl [
        .mk (.otherK "With") (nl [
          .mk (.cteK "hidden") (nl [
            .mk (.selectK none) (nl [.mk (.otherK "Literal") (nl [])])])]),
        .mk (.tableK ⟨"", "", "hidden"⟩) (nl [])])]),
    .mk (.tableK ⟨"p", "d", "uptime_events"⟩) (nl [])])

/-- Parse tree of `WITH information_schema AS (SELECT 1)
SELECT * FROM information_schema`: a CTE alias that contains the
metadata-schema marker, referenced without qualifiers. -/
def qInfoCte : Node :=
  .mk (.selectK none) (nl [
    .mk (.otherK "With") (nl [
      .mk (.cteK "information_schema") (nl [
        .mk (.selectK none) (nl [.mk (.otherK "Literal") (nl [])])])]),
    .mk (.tableK ⟨"", "", "information_schema"⟩) (nl [])])

/-- Parse tree of `SELECT * FROM proj.ds.INFORMATION_SCHEMA.TABLES` (the
trailing parts land in the reference's name). -/
def qInfoSchema : Node :=
  .mk (.selectK none) (nl [
    .mk (.tableK ⟨"proj", "ds", "INFORMATION_SCHEMA.TABLES"⟩) (nl [])])

/-- Parse tree of `SELECT * FROM EXTERNAL_QUERY('conn', 'SELECT 1')`: a
table-less select over an anonymous function call. -/
def qExternal : Node :=
  .mk (.selectK none) (nl [
    .mk (.funcK ⟨some "EXTERNAL_QUERY", "ANONYMOUS", "Anonymous"⟩) (nl [
      .mk (.otherK "Literal") (nl []), .mk (.otherK "Literal") (nl [])])])

/-! ## Structural lemmas -/

/-- A valid policy mode fails the unknown-mode guard. -/
theorem not_invalid_mode {mode : String} (h : mode = "strict" ∨ mode = "flex") :
    ¬(mode ≠ "strict" ∧ mode ≠ "flex") := by
  rcases h with h | h <;> simp [h]

/-- With a valid mode, a strict-mode-non-empty allowlist and a single parsed
statement, `validate_sql` reduces to `validate_statement`. -/
theorem validate_sql_single {statements : List (Option Node)} {stmt : Node}
    {ap ad mode : String} {tabs : List String}
    (hmode : mode = "strict" ∨ mode = "flex")
    (htabs : mode = "strict" → tabs ≠ [])
    (hfm : statements.filterMap id = [stmt]) :
    validate_sql statements ap ad mode tabs =
      validate_statement stmt ap ad (mode = "strict") tabs := by
  unfold validate_sql
  rw [if_neg (not_invalid_mode hmode),
    if_neg (by rintro ⟨hm, ht⟩; exact htabs hm ht), hfm]

/-- `validate_sql` on one parsed statement is `validate_statement`. -/
theorem validate_sql_one {stmt : Node} {ap ad mode : String}
    {tabs : List String}
    (hmode : mode = "strict" ∨ mode = "flex")
    (htabs : mode = "strict" → tabs ≠ []) :
    validate_sql [some stmt] ap ad mode tabs =
      validate_statement stmt ap ad (mode = "strict") tabs :=
  validate_sql_single hmode htabs rfl

/-- With the structural, mutation and function checks passed,
`validate_statement` is the table loop followed by the count check and the
limit rewrite. -/
theorem validate_statement_eq_loop {statement : Node} {ap ad : String}
    {strict : Bool} {tabs : List String}
    (hsel : statement.isSelect = true)
    (hmut : findMutation statement = none)
    (hblk : findBlocked statement = none) :
    validate_statement statement ap ad strict tabs =
      (match tableLoop strict (str_lower ap) (str_lower ad)
          (tabs.map str_lower) (cte_aliases statement)
          (findTables statement) 0 with
       | .error e => .error e
       | .ok count =>
         if strict = true ∧ count = 0 then .error .noTableReferenced
         else if hasLimitNode statement = true then .ok statement
         else .ok (setDefaultLimit statement _DEFAULT_LIMIT)) := by
  unfold validate_statement
  rw [hsel, hmut, hblk]
  rfl

/-- A successful validation returns the statement unchanged when it already
contains a limit node, and the statement with the default limit appended
otherwise. -/
theorem validate_statement_ok_shape {statement : Node} {ap ad : String}
    {strict : Bool} {tabs : List String} {out : Node}
    (h : validate_statement statement ap ad strict tabs = .ok out) :
    out = (if hasLimitNode statement = true then statement
           else setDefaultLimit statement _DEFAULT_LIMIT) := by
  unfold validate_statement at h
  split at h
  · cases h
  · split at h
    · cases h
    · split at h
      · cases h
      · split at h
        · cases h
        · split at h
          · cases h
          · split at h
            · next hlim => cases h; rw [if_pos hlim]
            · next hlim => cases h; rw [if_neg hlim]

/-- A successful `validate_sql` run saw exactly one statement, to which it
applied `validate_statement`. -/
theorem validate_sql_ok_parts {statements : List (Option Node)}
    {ap ad mode : String} {tabs : List String} {out : Node}
    (h : validate_sql statements ap ad mode tabs = .ok out) :
    ∃ stmt, statements.filterMap id = [stmt] ∧
      validate_statement stmt ap ad (mode = "strict") tabs = .ok out := by
  unfold validate_sql at h
  split at h
  · cases h
  · split at h
    · cases h
    · split at h
      · next stmt heq => exact ⟨stmt, heq, h⟩
      · cases h

/-- Stepping the table loop over a failing reference. -/
theorem tableLoop_cons_fail {strict : Bool} {apL adL : String}
    {tabsL aliases : List String} {t : TableData} {ts : List TableData}
    {count : Nat} {e : Err}
    (h : tableStep strict apL adL tabsL aliases t = .fail e) :
    tableLoop strict apL adL tabsL aliases (t :: ts) count = .error e := by
  unfold tableLoop
  rw [h]

/-- Stepping the table loop over a skipped (CTE-alias) reference. -/
theorem tableLoop_cons_skip {strict : Bool} {apL adL : String}
    {tabsL aliases : List String} {t : TableData} {ts : List TableData}
    {count : Nat}
    (h : tableStep strict apL adL tabsL aliases t = .skip) :
    tableLoop strict apL adL tabsL aliases (t :: ts) count =
      tableLoop strict apL adL tabsL aliases ts count := by
  show (match tableStep strict apL adL tabsL aliases t with
        | .skip => tableLoop strict apL adL tabsL aliases ts count
        | .counted => tableLoop strict apL adL tabsL aliases ts (count + 1)
        | .fail e => Except.error e) =
      tableLoop strict apL adL tabsL aliases ts count
  rw [h]

/-- Stepping the table loop over a counted real-table reference. -/
theorem tableLoop_cons_counted {strict : Bool} {apL adL : String}
    {tabsL aliases : List String} {t : TableData} {ts : List TableData}
    {count : Nat}
    (h : tableStep strict apL adL tabsL aliases t = .counted) :
    tableLoop strict apL adL tabsL aliases (t :: ts) count =
      tableLoop strict apL adL tabsL aliases ts (count + 1) := by
  show (match tableStep strict apL adL tabsL aliases t with
        | .skip => tableLoop strict apL adL tabsL aliases ts count
        | .counted => tableLoop strict apL adL tabsL aliases ts (count + 1)
        | .fail e => Except.error e) =
      tableLoop strict apL adL tabsL aliases ts (count + 1)
  rw [h]

/-- An unqualified reference whose lower-cased name is a collected CTE alias
is skipped by the table loop. -/
theorem tableStep_skip_of_alias {strict : Bool} {apL adL : String}
    {tabsL aliases : List String} {t : TableData}
    (ha : str_lower t.name ∈ aliases)
    (hc : str_lower t.catalog = "") (hd : str_lower t.db = "") :
    tableStep strict apL adL tabsL aliases t = .skip := by
  simp only [tableStep]
  rw [if_pos ⟨ha, hc, hd⟩]

/-- A non-skipped reference whose name or dataset qualifier contains the
metadata-schema marker fails with the metadata-access error, in either
mode and regardless of its project/dataset qualifiers. -/
theorem tableStep_metadata_of_marker {strict : Bool} {apL adL : String}
    {tabsL aliases : List String} {t : TableData}
    (hskip : ¬(str_lower t.name ∈ aliases ∧ str_lower t.catalog = "" ∧
               str_lower t.db = ""))
    (hmark : strContainsSub (str_lower t.name) "information_schema" = true ∨
             strContainsSub (str_lower t.db) "information_schema" = true) :
    tableStep strict apL adL tabsL aliases t = .fail .metadataAccess := by
  simp only [tableStep]
  rw [if_neg hskip, if_pos hmark]

/-- In strict mode, a reference that is no CTE alias, carries no metadata
marker, whose qualifiers (when present) match the allowed scope, and that
lacks a project or a dataset qualifier, fails as unqualified. -/
theorem tableStep_strict_unqualified {apL adL : String}
    {tabsL aliases : List String} {t : TableData}
    (hal : str_lower t.name ∉ aliases)
    (hmark1 : strContainsSub (str_lower t.name) "information_schema" = false)
    (hmark2 : strContainsSub (str_lower t.db) "information_schema" = false)
    (hcat : str_lower t.catalog = "" ∨ str_lower t.catalog = apL)
    (hdb : str_lower t.db = "" ∨ str_lower t.db = adL)
    (hunq : str_lower t.catalog = "" ∨ str_lower t.db = "") :
    tableStep true apL adL tabsL aliases t = .fail (.unqualifiedTable t.name) := by
  simp only [tableStep]
  rw [if_neg (by rintro ⟨ha, _, _⟩; exact hal ha),
    if_neg (by rw [hmark1, hmark2]; simp),
    if_neg (by rcases hcat with h | h <;> simp [h]),
    if_neg (by rcases hdb with h | h <;> simp [h]),
    if_pos ⟨by trivial, hunq⟩]

/-- In strict mode, a fully qualified in-scope reference whose bare name is
not in the allowlist fails as an unknown table. -/
theorem tableStep_strict_unknown {apL adL : String}
    {tabsL aliases : List String} {t : TableData}
    (hmark1 : strContainsSub (str_lower t.name) "information_schema" = false)
    (hmark2 : strContainsSub (str_lower t.db) "information_schema" = false)
    (hcat : str_lower t.catalog = apL) (hdb : str_lower t.db = adL)
    (hcne : str_lower t.catalog ≠ "") (hdne : str_lower t.db ≠ "")
    (hmem : str_lower t.name ∉ tabsL) :
    tableStep true apL adL tabsL aliases t = .fail (.unknownTable t.name) := by
  simp only [tableStep]
  rw [if_neg (by rintro ⟨_, hc, _⟩; exact hcne hc),
    if_neg (by rw [hmark1, hmark2]; simp),
    if_neg (by simp [hcat]),
    if_neg (by simp [hdb]),
    if_neg (by rintro ⟨_, h | h⟩; exacts [hcne h, hdne h]),
    if_pos ⟨by trivial, hmem⟩]

/-- A reference carrying a project qualifier different from the allowed
project fails with the project scope violation, in either mode. -/
theorem tableStep_scope_project {strict : Bool} {apL adL : String}
    {tabsL aliases : List String} {t : TableData}
    (hmark1 : strContainsSub (str_lower t.name) "information_schema" = false)
    (hmark2 : strContainsSub (str_lower t.db) "information_schema" = false)
    (hcne : str_lower t.catalog ≠ "") (hcmm : str_lower t.catalog ≠ apL) :
    tableStep strict apL adL tabsL aliases t =
      .fail (.scopeViolationProject t.catalog) := by
  simp only [tableStep]
  rw [if_neg (by rintro ⟨_, hc, _⟩; exact hcne hc),
    if_neg (by rw [hmark1, hmark2]; simp),
    if_pos ⟨hcne, hcmm⟩]

/-- `findSome?` yields a value whenever some member of the list does. -/
theorem exists_findSome?_of_mem {α β : Type} {l : List α} {f : α → Option β}
    {a : α} (ha : a ∈ l) (hfa : f a ≠ none) :
    ∃ b, l.findSome? f = some b := by
  induction l with
  | nil => cases ha
  | cons x xs ih =>
    rw [List.findSome?_cons]
    cases hfx : f x with
    | some b => exact ⟨b, rfl⟩
    | none =>
      rcases List.mem_cons.mp ha with rfl | hmem
      · exact absurd hfx hfa
      · exact ih hmem

/-- The truncation loop keeps an initial segment of whole rows. -/
theorem truncateLoop_eq_take {α : Type} (rowLen : α → Nat) :
    ∀ (rows : List α) (running : Nat),
      ∃ k, truncateLoop rowLen rows running = rows.take k := by
  intro rows
  induction rows with
  | nil => exact fun _ => ⟨0, rfl⟩
  | cons row rest ih =>
    intro running
    unfold truncateLoop
    split
    · exact ⟨0, rfl⟩
    · obtain ⟨k, hk⟩ := ih (running + rowLen row + 1)
      exact ⟨k + 1, by rw [hk, List.take_succ_cons]⟩

/-- The truncated payload is an initial segment of whole rows. -/
theorem truncatePayload_eq_take {α : Type} (rowLen : α → Nat)
    (rows : List α) : ∃ k, truncatePayload rowLen rows = rows.take k := by
  unfold truncatePayload
  split
  · exact truncateLoop_eq_take rowLen rows 2
  · exact ⟨rows.length, (List.take_length rows).symm⟩

/-- The strict policy mode decides to the `true` flag. -/
theorem strict_mode_decide : (decide ("strict" = "strict")) = true := rfl

/-! ## The claims -/

/-- C1: in Strict mode the validator rejects a table reference that does not
carry both a project and a dataset qualifier (`UnqualifiedTableError`),
rejects a fully qualified in-scope reference whose bare name
(case-insensitive) is not in `allowed_tables` (`UnknownTableError`), and
rejects a query with zero real table references
(`NoTableReferencedError`); in Flex mode the same unqualified and
table-less queries are accepted, while a project qualifier, when present,
is still checked. -/
theorem C1_strict_flex_table_policy :
    (∀ (apL adL : String) (tabsL aliases : List String) (t : TableData),
      str_lower t.name ∉ aliases →
      strContainsSub (str_lower t.name) "information_schema" = false →
      strContainsSub (str_lower t.db) "information_schema" = false →
      (str_lower t.catalog = "" ∨ str_lower t.catalog = apL) →
      (str_lower t.db = "" ∨ str_lower t.db = adL) →
      (str_lower t.catalog = "" ∨ str_lower t.db = "") →
      tableStep true apL adL tabsL aliases t = .fail (.unqualifiedTable t.name)) ∧
    (∀ (apL adL : String) (tabsL aliases : List String) (t : TableData),
      strContainsSub (str_lower t.name) "information_schema" = false →
      strContainsSub (str_lower t.db) "information_schema" = false →
      str_lower t.catalog = apL → str_lower t.db = adL →
      str_lower t.catalog ≠ "" → str_lower t.db ≠ "" →
      str_lower t.name ∉ tabsL →
      tableStep true apL adL tabsL aliases t = .fail (.unknownTable t.name)) ∧
    (∀ (statement : Node) (ap ad : String) (tabs : List String),
      tabs ≠ [] → statement.isSelect = true →
      findMutation statement = none → findBlocked statement = none →
      findTables statement = [] →
      validate_sql [some statement] ap ad "strict" tabs =
        .error .noTableReferenced) ∧
    validate_sql [some qUnqualified] "proj" "ds" "strict" allowlist0 =
      .error (.unqualifiedTable "uptime_events") ∧
    validate_sql [some qUnqualified] "proj" "ds" "flex" allowlist0 =
      .ok (setDefaultLimit qUnqualified _DEFAULT_LIMIT) ∧
    validate_sql [some qTableless] "proj" "ds" "flex" allowlist0 =
      .ok (setDefaultLimit qTableless _DEFAULT_LIMIT) ∧
    validate_sql [some qWrongProject] "proj" "ds" "flex" allowlist0 =
      .error (.scopeViolationProject "other_proj") := by
  refine ⟨fun apL adL tabsL aliases t hal h1 h2 h3 h4 h5 =>
      tableStep_strict_unqualified hal h1 h2 h3 h4 h5,
    fun apL adL tabsL aliases t h1 h2 h3 h4 h5 h6 h7 =>
      tableStep_strict_unknown h1 h2 h3 h4 h5 h6 h7,
    ?_, rfl, rfl, rfl, rfl⟩
  intro statement ap ad tabs htabs hsel hmut hblk htbl
  rw [validate_sql_one (Or.inl rfl) (fun _ => htabs),
    validate_statement_eq_loop hsel hmut hblk, htbl]
  rfl

/-- Witness for C1 at concrete inputs. -/
theorem C1_strict_flex_table_policy_witness :
    tableStep true "proj" "ds" ["uptime_events"] [] ⟨"", "", "events"⟩ =
      .fail (.unqualifiedTable "events") ∧
    tableStep true "proj" "ds" ["uptime_events"] [] ⟨"proj", "ds", "secret"⟩ =
      .fail (.unknownTable "secret") ∧
    validate_sql [some qTableless] "proj" "ds" "strict" allowlist0 =
      .error .noTableReferenced :=
  ⟨C1_strict_flex_table_policy.1 "proj" "ds" ["uptime_events"] []
      ⟨"", "", "events"⟩ (by decide) (by decide) (by decide) (by decide)
      (by decide) (by decide),
    C1_strict_flex_table_policy.2.1 "proj" "ds" ["uptime_events"] []
      ⟨"proj", "ds", "secret"⟩ (by decide) (by decide) (by decide) (by decide)
      (by decide) (by decide) (by decide),
    C1_strict_flex_table_policy.2.2.1 qTableless "proj" "ds" allowlist0
      (by decide) (by decide) (by decide) (by decide) (by decide)⟩

/-- C2: any function call one of whose candidate names normalizes into the
blocked canonical set is rejected with a blocked-function error; the
normalization makes the match insensitive to casing and to dot,
underscore and space punctuation, and the rejection is independent of
policy mode, holding in Flex mode and for table-less queries alike. -/
theorem C2_blocked_function_rejection :
    (∀ candidate : String,
      _BLOCKED_FUNCTIONS_CANONICAL.contains
        (_normalize_function_token candidate) = true →
      candidateLabel candidate = some (str_upper candidate)) ∧
    (∀ (statement : Node) (ap ad mode : String) (tabs : List String)
      (f : FuncData),
      (mode = "strict" ∨ mode = "flex") → (mode = "strict" → tabs ≠ []) →
      statement.isSelect = true → findMutation statement = none →
      f ∈ findFuncs statement → _blocked_function_label f ≠ none →
      ∃ name, validate_sql [some statement] ap ad mode tabs =
        .error (.blockedFunction name)) ∧
    candidateLabel "EXTERNAL_QUERY" = some "EXTERNAL_QUERY" ∧
    candidateLabel "external_query" = some "EXTERNAL_QUERY" ∧
    candidateLabel "External.Query" = some "EXTERNAL.QUERY" ∧
    _blocked_function_label ⟨none, "PREDICT", "Predict"⟩ = some "ML.PREDICT" ∧
    validate_sql [some qExternal] "proj" "ds" "flex" [] =
      .error (.blockedFunction "EXTERNAL_QUERY") ∧
    validate_sql [some qExternal] "proj" "ds" "strict" allowlist0 =
      .error (.blockedFunction "EXTERNAL_QUERY") := by
  refine ⟨?_, ?_, by decide, by decide, by decide, by decide, rfl, rfl⟩
  · intro candidate hmem
    simp only [candidateLabel]
    rw [if_pos hmem]
  · intro statement ap ad mode tabs f hmode htabs hsel hmut hmem hlabel
    obtain ⟨b, hb⟩ := exists_findSome?_of_mem hmem hlabel
    have hblk : findBlocked statement = some b := hb
    refine ⟨b, ?_⟩
    rw [validate_sql_one hmode htabs]
    unfold validate_statement
    rw [hsel, hmut, hblk]
    rfl

/-- Witness for C2 at concrete inputs. -/
theorem C2_blocked_function_rejection_witness :
    candidateLabel "Ml_Predict" = some "ML_PREDICT" ∧
    (∃ name, validate_sql [some qExternal] "p" "d" "flex" [] =
      .error (.blockedFunction name)) :=
  ⟨C2_blocked_function_rejection.1 "Ml_Predict" (by decide),
    C2_blocked_function_rejection.2.1 qExternal "p" "d" "flex" []
      ⟨some "EXTERNAL_QUERY", "ANONYMOUS", "Anonymous"⟩ (Or.inr rfl)
      (fun h => absurd h (by decide)) (by decide) (by decide) (by decide)
      (by decide)⟩

/-- C3: a CTE alias never grants access to the tables referenced inside the
CTE body: for `WITH data AS (SELECT * FROM p.d.secret_table)
SELECT * FROM data` in strict mode, the fully qualified inner reference
is checked as its own table node and fails the allowlist check whenever
`secret_table` is not allowed, even though the outer alias reference is
skipped. -/
theorem C3_cte_no_shadow (tabs : List String) (h1 : tabs ≠ [])
    (h2 : "secret_table" ∉ tabs.map str_lower) :
    validate_sql [some qCte] "p" "d" "strict" tabs =
      .error (.unknownTable "secret_table") := by
  rw [validate_sql_one (Or.inl rfl) (fun _ => h1),
    validate_statement_eq_loop (by decide) (by decide) (by decide),
    strict_mode_decide,
    show findTables qCte = [⟨"p", "d", "secret_table"⟩, ⟨"", "", "data"⟩]
      from by decide,
    show cte_aliases qCte = ["data"] from by decide,
    tableLoop_cons_fail (tableStep_strict_unknown (by decide) (by decide)
      (by decide) (by decide) (by decide) (by decide) h2)]

/-- Witness for C3 at the repository's default allowlist. -/
theorem C3_cte_no_shadow_witness :
    validate_sql [some qCte] "p" "d" "strict" allowlist0 =
      .error (.unknownTable "secret_table") :=
  C3_cte_no_shadow allowlist0 (by decide) (by decide)

/-- C4 (counterexample): the claim that nested subqueries' own `WITH`
aliases are not collected fails — `qNestedCte` binds the alias `hidden`
only inside a nested subquery, yet the alias is collected, and the
unqualified outer-level reference to `hidden` is skipped rather than
rejected: strict-mode validation accepts the whole query. -/
theorem C4_nested_cte_counterexample :
    cte_aliases qNestedCte = ["hidden"] ∧
    (⟨"", "", "hidden"⟩ : TableData) ∈ findTables qNestedCte ∧
    validate_sql [some qNestedCte] "p" "d" "strict" ["uptime_events"] =
      .ok (setDefaultLimit qNestedCte _DEFAULT_LIMIT) :=
  ⟨by decide, by decide, rfl⟩

/-- C4 (amended): the CTE-alias set contains the lower-cased alias of every
`WITH` binding anywhere in the statement tree — nested subqueries
included — and any unqualified table reference whose lower-cased name is
a collected alias is skipped by the table checks rather than checked. -/
theorem C4_cte_alias_scope :
    (∀ (statement : Node) (cs : NodeList) (a : String),
      Node.mk (.cteK a) cs ∈ statement.walk → a ≠ "" →
      str_lower a ∈ cte_aliases statement) ∧
    (∀ (strict : Bool) (apL adL : String) (tabsL aliases : List String)
      (t : TableData),
      str_lower t.name ∈ aliases → str_lower t.catalog = "" →
      str_lower t.db = "" →
      tableStep strict apL adL tabsL aliases t = .skip) := by
  constructor
  · intro statement cs a hmem hne
    unfold cte_aliases
    refine List.mem_filterMap.mpr ⟨Node.mk (.cteK a) cs, hmem, ?_⟩
    show (if a = "" then none else some (str_lower a)) = some (str_lower a)
    rw [if_neg hne]
  · intro strict apL adL tabsL aliases t ha hc hd
    exact tableStep_skip_of_alias ha hc hd

/-- Witness for C4's amended claim at concrete inputs. -/
theorem C4_cte_alias_scope_witness :
    str_lower "hidden" ∈ cte_aliases (Node.mk (.cteK "hidden") (nl [])) ∧
    tableStep true "p" "d" ["uptime_events"] ["hidden"] ⟨"", "", "hidden"⟩ =
      .skip :=
  ⟨C4_cte_alias_scope.1 (Node.mk (.cteK "hidden") (nl [])) (nl []) "hidden"
      (List.Mem.head _) (by decide),
    C4_cte_alias_scope.2 true "p" "d" ["uptime_events"] ["hidden"]
      ⟨"", "", "hidden"⟩ (by decide) (by decide) (by decide)⟩

/-- C5: a successful validation returns the statement completely unmodified
when the tree already holds a limit node and otherwise the statement with
the default `LIMIT 1000` appended; validating `SELECT * FROM p.d.t
LIMIT 5` preserves the single `LIMIT` with value 5. -/
theorem C5_limit_rewrite :
    (∀ (statements : List (Option Node)) (ap ad mode : String)
      (tabs : List String) (stmt out : Node),
      statements.filterMap id = [stmt] →
      validate_sql statements ap ad mode tabs = .ok out →
      out = (if hasLimitNode stmt = true then stmt
             else setDefaultLimit stmt _DEFAULT_LIMIT)) ∧
    validate_sql [some qLimit5] "p" "d" "strict" ["t"] = .ok qLimit5 ∧
    countLimits qLimit5 = 1 ∧ topLimit qLimit5 = some 5 := by
  refine ⟨?_, rfl, by decide, rfl⟩
  intro statements ap ad mode tabs stmt out hfm hok
  obtain ⟨stmt', hfm', hval⟩ := validate_sql_ok_parts hok
  rw [hfm] at hfm'
  injection hfm' with h1 _
  subst h1
  exact validate_statement_ok_shape hval

/-- Witness for C5 at a concrete accepted query. -/
theorem C5_limit_rewrite_witness :
    qLimit5 = (if hasLimitNode qLimit5 = true then qLimit5
               else setDefaultLimit qLimit5 _DEFAULT_LIMIT) :=
  C5_limit_rewrite.1 [some qLimit5] "p" "d" "strict" ["t"] qLimit5 qLimit5
    rfl rfl

/-- C6 (counterexample): the claim fails for a table reference that is an
unqualified CTE-alias self-reference: `qInfoCte` contains a table node
named `information_schema`, yet Flex mode accepts the query, and Strict
mode rejects it with `NoTableReferencedError`, not the metadata error. -/
theorem C6_metadata_counterexample :
    (⟨"", "", "information_schema"⟩ : TableData) ∈ findTables qInfoCte ∧
    strContainsSub (str_lower "information_schema") "information_schema" =
      true ∧
    validate_sql [some qInfoCte] "proj" "ds" "flex" allowlist0 =
      .ok (setDefaultLimit qInfoCte _DEFAULT_LIMIT) ∧
    validate_sql [some qInfoCte] "proj" "ds" "strict" allowlist0 =
      .error .noTableReferenced :=
  ⟨by decide, by decide, rfl, rfl⟩

/-- C6 (amended): every table reference that is not skipped as an
unqualified CTE-alias self-reference and whose name or dataset qualifier
contains `information_schema` (case-insensitive) fails with the
metadata-access error, in both modes, before any project/dataset
qualifier comparison for that node; the spec's
`SELECT * FROM proj.ds.INFORMATION_SCHEMA.TABLES` example is so rejected
in both modes. -/
theorem C6_metadata_block :
    (∀ (strict : Bool) (apL adL : String) (tabsL aliases : List String)
      (t : TableData),
      ¬(str_lower t.name ∈ aliases ∧ str_lower t.catalog = "" ∧
        str_lower t.db = "") →
      (strContainsSub (str_lower t.name) "information_schema" = true ∨
       strContainsSub (str_lower t.db) "information_schema" = true) →
      tableStep strict apL adL tabsL aliases t = .fail .metadataAccess) ∧
    validate_sql [some qInfoSchema] "proj" "ds" "strict" allowlist0 =
      .error .metadataAccess ∧
    validate_sql [some qInfoSchema] "proj" "ds" "flex" allowlist0 =
      .error .metadataAccess ∧
    tableStep true "proj" "ds" (allowlist0.map str_lower) []
      ⟨"evil_proj", "ds", "INFORMATION_SCHEMA.TABLES"⟩ =
      .fail .metadataAccess := by
  refine ⟨?_, rfl, rfl, by decide⟩
  intro strict apL adL tabsL aliases t hskip hmark
  exact tableStep_metadata_of_marker hskip hmark

/-- Witness for C6's amended claim at concrete inputs. -/
theorem C6_metadata_block_witness :
    tableStep false "proj" "ds" [] []
      ⟨"proj", "INFORMATION_SCHEMA", "TABLES"⟩ = .fail .metadataAccess :=
  C6_metadata_block.1 false "proj" "ds" [] []
    ⟨"proj", "INFORMATION_SCHEMA", "TABLES"⟩ (by decide) (by decide)

/-- C7: with a well-formed policy, two or more non-empty parsed statements
are rejected with the multi-statement error carrying their count; `None`
entries (empty statements from trailing separators) are discarded without
influencing the outcome; and an input with zero remaining statements is
also rejected. -/
theorem C7_multi_statement :
    (∀ (statements : List (Option Node)) (ap ad mode : String)
      (tabs : List String),
      (mode = "strict" ∨ mode = "flex") → (mode = "strict" → tabs ≠ []) →
      2 ≤ (statements.filterMap id).length →
      validate_sql statements ap ad mode tabs =
        .error (.multiStatement (statements.filterMap id).length)) ∧
    (∀ (statements : List (Option Node)) (ap ad mode : String)
      (tabs : List String),
      validate_sql (statements ++ [none]) ap ad mode tabs =
        validate_sql statements ap ad mode tabs) ∧
    (∀ (statements : List (Option Node)) (ap ad mode : String)
      (tabs : List String),
      (mode = "strict" ∨ mode = "flex") → (mode = "strict" → tabs ≠ []) →
      (statements.filterMap id).length = 0 →
      validate_sql statements ap ad mode tabs =
        .error (.multiStatement 0)) := by
  refine ⟨?_, ?_, ?_⟩
  · intro statements ap ad mode tabs hmode htabs hlen
    unfold validate_sql
    rw [if_neg (not_invalid_mode hmode),
      if_neg (by rintro ⟨hm, ht⟩; exact htabs hm ht)]
    rcases hl : statements.filterMap id with _ | ⟨a, as⟩
    · rfl
    · rcases as with _ | ⟨b, t⟩
      · rw [hl] at hlen
        simp at hlen
      · rfl
  · intro statements ap ad mode tabs
    unfold validate_sql
    rw [List.filterMap_append,
      show (([none] : List (Option Node)).filterMap id) = [] from rfl,
      List.append_nil]
  · intro statements ap ad mode tabs hmode htabs hlen
    unfold validate_sql
    rw [if_neg (not_invalid_mode hmode),
      if_neg (by rintro ⟨hm, ht⟩; exact htabs hm ht),
      List.length_eq_zero.mp hlen]
    rfl

/-- Witness for C7 at concrete inputs. -/
theorem C7_multi_statement_witness :
    validate_sql [some qTableless, some qTableless] "p" "d" "flex" [] =
      .error (.multiStatement 2) ∧
    validate_sql ([some qTableless] ++ [none]) "p" "d" "flex" [] =
      validate_sql [some qTableless] "p" "d" "flex" [] ∧
    validate_sql [] "p" "d" "flex" [] = .error (.multiStatement 0) :=
  ⟨C7_multi_statement.1 [some qTableless, some qTableless] "p" "d" "flex" []
      (Or.inr rfl) (fun h => absurd h (by decide)) (by decide),
    C7_multi_statement.2.1 [some qTableless] "p" "d" "flex" [],
    C7_multi_statement.2.2 [] "p" "d" "flex" [] (Or.inr rfl)
      (fun h => absurd h (by decide)) rfl⟩

/-- C8: constructing a `Settings` value with strict mode and an empty parsed
allowlist fails the configuration-time model validator (whatever other
fields hold), before any query is evaluated; and a strict-mode call of
the validator with an empty (or missing) `allowed_tables` set fails with
the empty-allowlist error for every input, before any statement is
examined. -/
theorem C8_strict_empty_allowlist :
    (∀ s : Settings, s.sql_policy_mode = "strict" →
      parsedAllowedTables s.sql_allowed_tables = [] →
      ∃ msg, _validate_sql_policy s = .error msg) ∧
    (∀ (statements : List (Option Node)) (ap ad : String),
      validate_sql statements ap ad "strict" [] = .error .emptyAllowlist) := by
  constructor
  · intro s hm hempty
    unfold _validate_sql_policy
    split_ifs with h1 h2 h3
    · exact ⟨_, rfl⟩
    · exact ⟨_, rfl⟩
    · exact ⟨_, rfl⟩
    · exact absurd ⟨hm, hempty⟩ h3
  · intro statements ap ad
    rfl

/-- Witness for C8 at a concrete configuration and input. -/
theorem C8_strict_empty_allowlist_witness :
    (∃ msg, _validate_sql_policy { sql_allowed_tables := "" } = .error msg) ∧
    validate_sql [some qLimit5] "p" "d" "strict" [] =
      .error .emptyAllowlist :=
  ⟨C8_strict_empty_allowlist.1 { sql_allowed_tables := "" } rfl (by decide),
    C8_strict_empty_allowlist.2 [some qLimit5] "p" "d"⟩

/-- C9 (counterexample): nothing in the returned result marks truncation —
`ToolResult` has only `ok`, `error` and `data` — so an execution whose
payload was truncated (two rows of serialized length 49999 each, payload
100002 bytes) yields a result equal to that of an untruncated empty
execution. -/
theorem C9_no_truncated_flag_counterexample :
    jsonListLen (([49999, 49999] : List Nat).map id) > _MAX_RESULT_BYTES ∧
    truncatePayload id [49999, 49999] ≠ [49999, 49999] ∧
    toolSuccessResult id [49999, 49999] = toolSuccessResult id ([] : List Nat)
    := by
  refine ⟨by decide, by decide, by decide⟩

/-- C9 (amended): when the serialized result exceeds the byte budget the
guard drops trailing rows one at a time — the returned data is an initial
segment of whole rows, never a mid-record cut — and returns the preserved
partial result with `ok = true` and no error; but the result carries no
`truncated` flag (its only fields are `ok`, `error` and `data`), so
truncation is not signalled to the caller. -/
theorem C9_truncation_shape (α : Type) (rowLen : α → Nat) (rows : List α) :
    (toolSuccessResult rowLen rows).ok = true ∧
    (toolSuccessResult rowLen rows).error = none ∧
    ∃ k, (toolSuccessResult rowLen rows).data = some (rows.take k) := by
  refine ⟨rfl, rfl, ?_⟩
  obtain ⟨k, hk⟩ := truncatePayload_eq_take rowLen rows
  refine ⟨k, ?_⟩
  show some (truncatePayload rowLen rows) = some (rows.take k)
  rw [hk]

/-- C10: the truncation keeps a whole-row initial segment, but its byte
accounting adds only one byte per separator while `json.dumps` emits the
two-byte `", "`: for four rows of serialized length 16665 each (full
payload 66668 bytes, so truncation runs), the kept three-row payload
serializes to 50001 bytes, exceeding the 50000-byte budget the code's
own comments promise. -/
theorem C10_truncation_overflow :
    jsonListLen (([16665, 16665, 16665, 16665] : List Nat).map id) = 66668 ∧
    66668 > _MAX_RESULT_BYTES ∧
    truncatePayload id [16665, 16665, 16665, 16665] = [16665, 16665, 16665] ∧
    ([16665, 16665, 16665] : List Nat) =
      ([16665, 16665, 16665, 16665] : List Nat).take 3 ∧
    jsonListLen (([16665, 16665, 16665] : List Nat).map id) = 50001 ∧
    50001 > _MAX_RESULT_BYTES := by
  refine ⟨by decide, by decide, by decide, by decide, by decide, by decide⟩

end Labsight
